import Mathlib

/-!
Verification of the PARMS authentication/authorization core against its
specification.  The definitions below are shallow embeddings of the
JavaScript source: rbac.middleware.js, authService (auth.controller.js),
the User model (user.model.js), the auth routes (user.route.js), the
database model helpers (mongodb.js) and the patient-dashboard aggregation
example (patientDashboard.route.js).  Times are in milliseconds as natural
numbers unless a name says otherwise.
-/

/-! ## RBAC middleware (rbac.middleware.js) -/

/-- The authenticated request user attached by authenticateJWT
(decoded token payload: id, role, linked profile id). -/
structure ReqUser where
  id : String
  role : String
  profileId : Option String
deriving DecidableEq

/-- Outcome of an express guard middleware: either fall through to the
next handler, or throw an AppError with a message and an HTTP status. -/
inductive GuardOutcome where
  | next
  | appError (message : String) (status : Nat)
deriving DecidableEq

/-- ROLE_HIERARCHY lookup with the JS default:
ROLE_HIERARCHY[role] is undefined for unknown names, and the
expression ROLE_HIERARCHY[role] || 0 then yields 0. -/
def getRoleLevel (role : String) : Nat :=
  if role = "patient" then 1
  else if role = "frontdesk" then 2
  else if role = "doctor" then 3
  else if role = "admin" then 4
  else if role = "superadmin" then 5
  else 0

/-- JS Math.min over a spread list: none models the empty spread,
where Math.min() evaluates to Infinity (larger than every level). -/
def mathMinList : List Nat → Option Nat
  | [] => none
  | x :: xs => some (xs.foldl Nat.min x)

/-- requireRole(allowedRoles, { requireHigher }) applied to a request.
The roles argument is already normalized to an array.  In requireHigher
mode the level of the user is compared against the minimum level among the
allowed roles; otherwise plain membership is checked. -/
def requireRole (allowedRoles : List String) (requireHigher : Bool)
    (reqUser : Option ReqUser) : GuardOutcome :=
  match reqUser with
  | none => .appError "Authentication required to access this resource." 401
  | some u =>
    if requireHigher then
      match mathMinList (allowedRoles.map getRoleLevel) with
      | none => .appError "Access denied. Insufficient privileges." 403
      | some minRequiredLevel =>
        if getRoleLevel u.role < minRequiredLevel then
          .appError "Access denied. Insufficient privileges." 403
        else .next
    else
      if allowedRoles.contains u.role then .next
      else
        .appError ("Access denied. Required roles: "
          ++ String.intercalate ", " allowedRoles) 403

/-- checkPatientAccess(patientIdParam): doctor and admin bypass; a
patient passes iff their linked profileId equals the requested patient
id (both compared after optional-chaining toString); every other role
is rejected with 403. -/
def checkPatientAccess (reqUser : Option ReqUser)
    (requestedPatientId : Option String) : GuardOutcome :=
  match reqUser with
  | none => .appError "Authentication required." 401
  | some u =>
    if u.role = "doctor" ∨ u.role = "admin" then .next
    else if u.role = "patient" then
      if u.profileId ≠ requestedPatientId then
        .appError "Access denied. You can only access your own patient data." 403
      else .next
    else
      .appError "Access denied. Insufficient privileges to access patient data." 403

/-! Helper facts about the JS Math.min fold. -/

theorem foldl_min_le_init (as : List Nat) (a : Nat) :
    as.foldl Nat.min a ≤ a := by
  induction as generalizing a with
  | nil => simp
  | cons b bs ih =>
    calc (b :: bs).foldl Nat.min a = bs.foldl Nat.min (Nat.min a b) := rfl
    _ ≤ Nat.min a b := ih _
    _ ≤ a := Nat.min_le_left _ _

theorem foldl_min_le_mem (as : List Nat) (a x : Nat) (hx : x ∈ as) :
    as.foldl Nat.min a ≤ x := by
  induction as generalizing a with
  | nil => cases hx
  | cons b bs ih =>
    rcases List.mem_cons.mp hx with h | h
    · subst h
      calc (x :: bs).foldl Nat.min a = bs.foldl Nat.min (Nat.min a x) := rfl
      _ ≤ Nat.min a x := foldl_min_le_init _ _
      _ ≤ x := Nat.min_le_right _ _
    · exact ih _ h

theorem mathMinList_le_of_mem (l : List Nat) (x : Nat) (hx : x ∈ l) :
    ∃ m, mathMinList l = some m ∧ m ≤ x := by
  cases l with
  | nil => cases hx
  | cons a as =>
    refine ⟨as.foldl Nat.min a, rfl, ?_⟩
    rcases List.mem_cons.mp hx with h | h
    · subst h; exact foldl_min_le_init _ _
    · exact foldl_min_le_mem _ _ _ h

/-! ## Token service (authService, auth.controller.js) -/

/-- JWT configuration (config/index.js): JWT_SECRET, JWT_REFRESH_SECRET
and the two expiry windows, in seconds. -/
structure JwtConfig where
  secret : String
  refreshSecret : String
  accessExpirySec : Nat
  refreshExpirySec : Nat
deriving DecidableEq

/-- The claims object passed to jwt.sign.  The access token embeds
id, email, role and the kind tag; the refresh token embeds id and the
kind tag only (email and role absent). -/
structure JwtPayload where
  id : String
  email : Option String
  role : Option String
  type : String
  iat : Nat
deriving DecidableEq

/-- A signed JWT, idealizing the jsonwebtoken library: the serialized
string determines (and is determined by) the signed claims, the signing
secret, issuer, audience and expiry, and jwt.verify(token, secret)
succeeds exactly when the token was signed with that secret. -/
structure SignedJwt where
  payload : JwtPayload
  signedWith : String
  issuer : String
  audience : String
  exp : Nat
deriving DecidableEq

/-- generateAccessToken: payload { id, email, role, type access, iat },
signed with the access secret, expiring after the access window. -/
def generateAccessToken (cfg : JwtConfig) (nowMs : Nat)
    (id email role : String) : SignedJwt :=
  { payload := { id := id, email := some email, role := some role,
                 type := "access", iat := nowMs / 1000 }
    signedWith := cfg.secret
    issuer := "parms-backend"
    audience := "parms-frontend"
    exp := nowMs / 1000 + cfg.accessExpirySec }

/-- generateRefreshToken: payload { id, type refresh, iat }, signed
with the refresh secret, expiring after the refresh window. -/
def generateRefreshToken (cfg : JwtConfig) (nowMs : Nat) (id : String) : SignedJwt :=
  { payload := { id := id, email := none, role := none,
                 type := "refresh", iat := nowMs / 1000 }
    signedWith := cfg.refreshSecret
    issuer := "parms-backend"
    audience := "parms-frontend"
    exp := nowMs / 1000 + cfg.refreshExpirySec }

/-- verifyToken(token, type): picks the refresh secret when type is
exactly the string refresh and the access secret otherwise, runs
jwt.verify (signature, issuer/audience, expiry), then rejects the token
when the kind tag inside the signed payload differs from the expected
type.  Error strings follow the JWT_ERROR_MESSAGES mapping; the kind
mismatch is an ordinary Error, reported through the fallback branch. -/
def verifyToken (cfg : JwtConfig) (nowSec : Nat) (token : SignedJwt)
    (type : String) : Except String JwtPayload :=
  let secret := if type = "refresh" then cfg.refreshSecret else cfg.secret
  if token.signedWith ≠ secret then .error "Invalid token"
  else if token.issuer ≠ "parms-backend" then .error "Invalid token"
  else if token.audience ≠ "parms-frontend" then .error "Invalid token"
  else if token.exp ≤ nowSec then .error "Token has expired"
  else if token.payload.type ≠ type then
    .error "Token verification failed: Invalid token type"
  else .ok token.payload

/-- Result of generateTokenPair: both tokens plus the access expiry. -/
structure TokenPair where
  accessToken : SignedJwt
  refreshToken : SignedJwt
  expiresIn : Nat
deriving DecidableEq

/-! ## User model (user.model.js) -/

/-- One entry of the refreshTokens array of the User schema. -/
structure RefreshTokenRecord where
  token : SignedJwt
  createdAt : Nat
  expiresAt : Nat
  device : Option String
  ipAddress : Option String
deriving DecidableEq

/-- The User document fields the auth core reads and mutates. -/
structure UserState where
  id : String
  email : String
  role : String
  isActive : Bool
  failedLoginAttempts : Nat
  accountLockedUntil : Option Nat
  lastLogin : Option Nat
  refreshTokens : List RefreshTokenRecord
deriving DecidableEq

/-- The isLocked virtual: accountLockedUntil is set and in the future. -/
def UserState.isLocked (u : UserState) (nowMs : Nat) : Bool :=
  match u.accountLockedUntil with
  | some t => decide (nowMs < t)
  | none => false

/-- The pre-save hook that prunes expired refresh tokens; document.save
runs it every time.  (The password-hashing hook does not touch the
fields modeled here.) -/
def saveUser (nowMs : Nat) (u : UserState) : UserState :=
  { u with refreshTokens :=
      u.refreshTokens.filter (fun rt => decide (nowMs < rt.expiresAt)) }

/-- The unconditional part of incrementLoginAttempts: $inc the counter,
and when the post-increment count reaches 5 while the account is not
already locked, $set accountLockedUntil to now + 2 hours. -/
def incrementCore (u : UserState) (nowMs : Nat) : UserState :=
  let locked := u.isLocked nowMs
  let incremented := { u with failedLoginAttempts := u.failedLoginAttempts + 1 }
  if 5 ≤ u.failedLoginAttempts + 1 ∧ locked = false then
    { incremented with accountLockedUntil := some (nowMs + 7200000) }
  else incremented

/-- incrementLoginAttempts: when a previous lock has expired the
counter restarts at 1 and the lock clears; otherwise the counter is
incremented and the 5-attempt / 2-hour lock rule applies.  (updateOne
bypasses the save hooks.) -/
def UserState.incrementLoginAttempts (u : UserState) (nowMs : Nat) : UserState :=
  match u.accountLockedUntil with
  | some t =>
    if t < nowMs then
      { u with failedLoginAttempts := 1, accountLockedUntil := none }
    else incrementCore u nowMs
  | none => incrementCore u nowMs

/-- resetLoginAttempts: clear the counter and the lock, stamp lastLogin. -/
def UserState.resetLoginAttempts (u : UserState) (nowMs : Nat) : UserState :=
  { u with failedLoginAttempts := 0, accountLockedUntil := none,
           lastLogin := some nowMs }

/-- addRefreshToken(token, expiresIn, device, ipAddress): push a record,
keep only the last 5 via slice(-5), then save (which prunes expired
records). -/
def UserState.addRefreshToken (u : UserState) (nowMs : Nat) (token : SignedJwt)
    (expiresInMs : Nat) (device ipAddress : Option String) : UserState :=
  let pushed := u.refreshTokens ++
    [{ token := token, createdAt := nowMs, expiresAt := nowMs + expiresInMs,
       device := device, ipAddress := ipAddress }]
  let capped := if 5 < pushed.length then pushed.drop (pushed.length - 5) else pushed
  saveUser nowMs { u with refreshTokens := capped }

/-- removeRefreshToken(token): filter the record with that token out of
the list on the document, then save. -/
def UserState.removeRefreshToken (u : UserState) (nowMs : Nat)
    (token : SignedJwt) : UserState :=
  saveUser nowMs
    { u with refreshTokens := u.refreshTokens.filter (fun rt => decide (rt.token ≠ token)) }

/-- removeAllRefreshTokens: empty the list, then save. -/
def UserState.removeAllRefreshTokens (u : UserState) (nowMs : Nat) : UserState :=
  saveUser nowMs { u with refreshTokens := [] }

/-- generateTokenPair(user). -/
def generateTokenPair (cfg : JwtConfig) (nowMs : Nat) (u : UserState) : TokenPair :=
  { accessToken := generateAccessToken cfg nowMs u.id u.email u.role
    refreshToken := generateRefreshToken cfg nowMs u.id
    expiresIn := cfg.accessExpirySec }

/-! ## Auth route handlers (user.route.js) -/

/-- What a route handler produces: a JSON success response carrying the
token pair, or an AppError with message and HTTP status.  (A thrown
non-App Error from verifyToken surfaces through the error middleware
with status 500.) -/
inductive HandlerResult where
  | ok (status : Nat) (tokens : TokenPair)
  | err (message : String) (status : Nat)
deriving DecidableEq

/-- The POST /auth/login handler.  Inputs: the email lookup result
(with password selected), whether bcrypt.compare accepted the submitted
password, and the device / ip request metadata.  Returns the response
and the user document as left in the store. -/
def loginHandler (cfg : JwtConfig) (nowMs : Nat) (passwordMatches : Bool)
    (device ipAddress : Option String) (found : Option UserState) :
    HandlerResult × Option UserState :=
  match found with
  | none => (.err "Invalid email or password" 401, none)
  | some user =>
    if user.isLocked nowMs then
      (.err "Account is temporarily locked due to multiple failed login attempts" 403,
       some user)
    else if user.isActive = false then
      (.err "Account is inactive. Please contact support." 403, some user)
    else if passwordMatches = false then
      (.err "Invalid email or password" 401,
       some (user.incrementLoginAttempts nowMs))
    else
      let reset := user.resetLoginAttempts nowMs
      let tokens := generateTokenPair cfg nowMs reset
      let stored := reset.addRefreshToken nowMs tokens.refreshToken
        (7 * 24 * 60 * 60 * 1000) device ipAddress
      (.ok 200 tokens, some stored)

/-- The tokenExists check of the refresh-token route: some stored
record holds exactly the presented token and is unexpired. -/
def refreshTokenExists (u : UserState) (nowMs : Nat) (presented : SignedJwt) : Bool :=
  u.refreshTokens.any (fun rt => decide (rt.token = presented) && decide (nowMs < rt.expiresAt))

/-- The POST /auth/refresh-token handler, run to completion with no
interleaving: verify the presented token as refresh kind, look the user
up, check isActive and tokenExists, then rotate (remove old record, add
new one). -/
def refreshTokenHandler (cfg : JwtConfig) (nowMs : Nat) (presented : SignedJwt)
    (device ipAddress : Option String) (found : Option UserState) :
    HandlerResult × Option UserState :=
  match verifyToken cfg (nowMs / 1000) presented "refresh" with
  | .error msg => (.err msg 500, found)
  | .ok _ =>
    match found with
    | none => (.err "User not found" 401, none)
    | some user =>
      if user.isActive = false then (.err "Account is inactive" 403, some user)
      else if refreshTokenExists user nowMs presented = false then
        (.err "Invalid or expired refresh token" 401, some user)
      else
        let tokens := generateTokenPair cfg nowMs user
        let removed := user.removeRefreshToken nowMs presented
        let stored := removed.addRefreshToken nowMs tokens.refreshToken
          (7 * 24 * 60 * 60 * 1000) device ipAddress
        (.ok 200 tokens, some stored)

/-- The POST /auth/change-password handler for an authenticated user:
verify the current password, set the new password hash, remove all
refresh tokens, save, and return a fresh token pair WITHOUT storing its
refresh token. -/
def changePasswordHandler (cfg : JwtConfig) (nowMs : Nat)
    (currentPasswordMatches : Bool) (user : UserState) :
    HandlerResult × UserState :=
  if currentPasswordMatches = false then
    (.err "Current password is incorrect" 401, user)
  else
    let cleared := user.removeAllRefreshTokens nowMs
    let saved := saveUser nowMs cleared
    let tokens := generateTokenPair cfg nowMs saved
    (.ok 200 tokens, saved)

/-! ## Interleaved refresh rotation (concurrency model of section 5)

The handler suspends at each await.  Its effectful segments are:
read the user document (findById); the synchronous block ending in
the save inside removeRefreshToken (isActive check, tokenExists check on the
local copy, token generation, filter + write of the local copy); and
the save inside addRefreshToken (push + write of the local copy).  Two requests
may interleave between any two segments; each save writes its own
in-memory copy of the document back to the store. -/

/-- Segment of the refresh handler from after findById up to and
including the save inside removeRefreshToken, acting on the handler
local document copy.  On success it returns the generated pair and the
document value that the save wrote to the store. -/
def rotateValidateAndRemove (cfg : JwtConfig) (nowMs : Nat) (presented : SignedJwt)
    (localDoc : UserState) : Except (String × Nat) (TokenPair × UserState) :=
  if localDoc.isActive = false then .error ("Account is inactive", 403)
  else if refreshTokenExists localDoc nowMs presented = false then
    .error ("Invalid or expired refresh token", 401)
  else
    let tokens := generateTokenPair cfg nowMs localDoc
    .ok (tokens, localDoc.removeRefreshToken nowMs presented)

/-- Segment of the refresh handler performing the push and
save of addRefreshToken on the local document copy of the handler; the result is written to the
store. -/
def rotateAdd (nowMs : Nat) (tokens : TokenPair) (device ipAddress : Option String)
    (localDoc : UserState) : UserState :=
  localDoc.addRefreshToken nowMs tokens.refreshToken (7 * 24 * 60 * 60 * 1000)
    device ipAddress

/-- Two refresh calls A (at nowA) and B (at nowB) both presenting the
same token, under the schedule: A and B both complete findById on the
store state db0, then A runs its remove and add segments, then B runs
its remove and add segments.  Each segment writes the document copy
of the running handler back to the store, so the writes of B are based
on a stale snapshot.  Returns (result of A, result of B, final store state).
Both calls verify the presented token first, as in the handler. -/
def rotateRace (cfg : JwtConfig) (nowA nowB : Nat) (presented : SignedJwt)
    (db0 : UserState) : Option TokenPair × Option TokenPair × UserState :=
  match verifyToken cfg (nowA / 1000) presented "refresh",
        verifyToken cfg (nowB / 1000) presented "refresh" with
  | .ok _, .ok _ =>
    let aLocal := db0
    let bLocal := db0
    match rotateValidateAndRemove cfg nowA presented aLocal with
    | .error _ => (none, none, db0)
    | .ok (tokensA, aWritten) =>
      let _dbAfterA := rotateAdd nowA tokensA none none aWritten
      match rotateValidateAndRemove cfg nowB presented bLocal with
      | .error _ => (some tokensA, none, _dbAfterA)
      | .ok (tokensB, bWritten) =>
        let dbAfterB := rotateAdd nowB tokensB none none bWritten
        (some tokensA, some tokensB, dbAfterB)
  | _, _ => (none, none, db0)

/-! ## Federated store model handles (mongodb.js model helpers) -/

/-- An operation invoked on a mongoose model or driver collection. -/
inductive DbOp where
  | findQuery
  | insertOne
  | updateOne
  | deleteOne
deriving DecidableEq

/-- What invoking an operation on a store handle does: dispatch the
operation over the wire to the named store, or fail fast with a
ConfigurationError before any network traffic. -/
inductive CallEffect where
  | networkCall (store : String) (op : DbOp)
  | configError (message : String)
deriving DecidableEq

/-- Whether a call effect is a fail-fast configuration error. -/
def CallEffect.isConfigError : CallEffect → Bool
  | .configError _ => true
  | _ => false

/-- The handle returned by connection.model(modelName, schema): an
ordinary mongoose Model bound to the store of the connection.  The source
wraps it in nothing. -/
structure ModelHandle where
  store : String
  modelName : String
deriving DecidableEq

/-- connection.model(modelName, schema) on the connection of a named store. -/
def connectionModel (store : String) (modelName : String) : ModelHandle :=
  { store := store, modelName := modelName }

/-- getIBMSModel(modelName, schema): resolves the IBMS connection and
returns connection.model(modelName, schema), unwrapped. -/
def getIBMSModel (modelName : String) : ModelHandle :=
  connectionModel "ibms" modelName

/-- getHRMSModel(modelName, schema): resolves the HRMS connection and
returns connection.model(modelName, schema), unwrapped. -/
def getHRMSModel (modelName : String) : ModelHandle :=
  connectionModel "hrms" modelName

/-- Invoking an operation on a mongoose Model handle: every operation,
query or mutation alike, is dispatched to the underlying connection and
issues network traffic; the source installs no guard of any kind on the
handles it returns. -/
def modelCall (h : ModelHandle) (op : DbOp) : CallEffect :=
  .networkCall h.store op

/-! ## Patient dashboard aggregation (patientDashboard.route.js) -/

/-- A patient document from the primary (PARMS) store. -/
structure PatientDoc where
  id : String
  firstName : String
  lastName : String
  email : Option String
  phone : Option String
  dateOfBirth : Option String
deriving DecidableEq

/-- An appointment document from the primary store. -/
structure ApptDoc where
  id : String
  date : Nat
  time : String
  type : String
  status : String
  doctorId : Option String
deriving DecidableEq

/-- A billing document from the read-only IBMS store. -/
structure BillDoc where
  id : String
  date : Nat
  amount : Nat
  amountDue : Nat
  status : String
  description : String
deriving DecidableEq

/-- A staff document from the read-only HRMS store. -/
structure StaffDoc where
  id : String
  firstName : String
  lastName : String
  specialty : String
  phone : Option String
deriving DecidableEq

/-- The doctor entry placed into the doctorMap lookup. -/
structure DoctorInfo where
  id : String
  name : String
  specialty : String
  phone : Option String
deriving DecidableEq

/-- One appointment of the combined dashboard; doctor is
doctorMap[apt.doctorId?.toString()] || null, so an unmatched doctor is
silently null. -/
structure ApptView where
  id : String
  date : Nat
  time : String
  type : String
  status : String
  doctor : Option DoctorInfo
deriving DecidableEq

/-- The billing section of the combined dashboard. -/
structure BillingSection where
  recentBills : List BillDoc
  totalOutstanding : Nat
  hasOutstanding : Bool
deriving DecidableEq

/-- The dashboardData object of the route: patient, appointments with
their count, billing.  It has no unavailability marker and no
partial-data flag anywhere. -/
structure DashboardData where
  patient : PatientDoc
  appointmentsUpcoming : List ApptView
  appointmentsTotal : Nat
  billing : BillingSection
deriving DecidableEq

/-- How the GET /api/patient-dashboard/:patientId handler terminates:
200 success with the combined data, 404 when the patient is missing, or
the catch block forwarding any thrown error to the error middleware
(next(error)), which fails the whole request. -/
inductive DashboardResult where
  | success (dash : DashboardData)
  | notFound (message : String)
  | errorForwarded (message : String)
deriving DecidableEq

/-- The doctorMap built from the HRMS staff result keyed by doctor id,
then looked up per appointment. -/
def doctorMapLookup (doctors : List StaffDoc) (doctorId : Option String) :
    Option DoctorInfo :=
  match doctorId with
  | none => none
  | some did =>
    match doctors.find? (fun d => decide (d.id = did)) with
    | some d => some { id := d.id, name := d.firstName ++ " " ++ d.lastName,
                       specialty := d.specialty, phone := d.phone }
    | none => none

/-- The dashboard handler over the outcomes of its four store fetches,
in source order: the required patient fetch (absence means 404), then
the appointments, billing and staff fetches.  All four awaits sit in
one try block, so the first fetch that throws sends the whole request
to the catch block and no later fetch runs. -/
def patientDashboardHandler
    (patientFetch : Except String (Option PatientDoc))
    (apptsFetch : Except String (List ApptDoc))
    (billingFetch : Except String (List BillDoc))
    (staffFetch : Except String (List StaffDoc)) : DashboardResult :=
  match patientFetch with
  | .error e => .errorForwarded e
  | .ok none => .notFound "Patient not found"
  | .ok (some patient) =>
    match apptsFetch with
    | .error e => .errorForwarded e
    | .ok upcomingAppointments =>
      match billingFetch with
      | .error e => .errorForwarded e
      | .ok billingData =>
        match staffFetch with
        | .error e => .errorForwarded e
        | .ok doctors =>
          let totalOutstanding := billingData.foldl (fun sum bill => sum + bill.amountDue) 0
          .success
            { patient := patient
              appointmentsUpcoming := upcomingAppointments.map (fun apt =>
                { id := apt.id, date := apt.date, time := apt.time,
                  type := apt.type, status := apt.status,
                  doctor := doctorMapLookup doctors apt.doctorId })
              appointmentsTotal := upcomingAppointments.length
              billing :=
                { recentBills := billingData.take 5
                  totalOutstanding := totalOutstanding
                  hasOutstanding := decide (0 < totalOutstanding) } }

/-! ## Concrete fixtures used by witnesses and counterexamples -/

/-- A concrete JWT configuration with distinct secrets and the default
expiry windows (15 minutes, 7 days). -/
def cfgSample : JwtConfig :=
  { secret := "access-secret-0123456789abcdef"
    refreshSecret := "refresh-secret-0123456789abcdef"
    accessExpirySec := 900
    refreshExpirySec := 604800 }

/-- A concrete patient document. -/
def patientSample : PatientDoc :=
  { id := "p1", firstName := "Ana", lastName := "Cruz",
    email := none, phone := none, dateOfBirth := none }

/-- A fresh user with no failed attempts, no lock and no stored tokens. -/
def u0Sample : UserState :=
  { id := "u1", email := "ana@example.com", role := "patient",
    isActive := true, failedLoginAttempts := 0, accountLockedUntil := none,
    lastLogin := none, refreshTokens := [] }

/-- A stored refresh token issued at time 1000000 ms for user u1. -/
def tokenT : SignedJwt := generateRefreshToken cfgSample 1000000 "u1"

/-- The user u1 with the single stored refresh-token record for tokenT. -/
def dbUser : UserState :=
  { id := "u1", email := "ana@example.com", role := "patient",
    isActive := true, failedLoginAttempts := 0, accountLockedUntil := none,
    lastLogin := none,
    refreshTokens := [{ token := tokenT, createdAt := 1000000,
                        expiresAt := 1000000 + 604800000,
                        device := none, ipAddress := none }] }

/-! ## C8: role hierarchy and requireRole in AtLeast mode -/

/-- C8: the role-to-level mapping is total (a Lean function) and
monotonic over patient < frontdesk < doctor < admin < superadmin;
unknown role names map to level 0; requireRole in AtLeast mode with
allowed set [frontdesk] passes exactly for principals at level 2 or
higher (so frontdesk, doctor, admin, superadmin pass and patient
fails); and in general AtLeast mode passes exactly when the principal
level is at least the minimum level among the allowed roles. -/
theorem role_hierarchy_atLeast_spec :
    (getRoleLevel "patient" < getRoleLevel "frontdesk"
      ∧ getRoleLevel "frontdesk" < getRoleLevel "doctor"
      ∧ getRoleLevel "doctor" < getRoleLevel "admin"
      ∧ getRoleLevel "admin" < getRoleLevel "superadmin")
    ∧ (∀ r : String, r ≠ "patient" → r ≠ "frontdesk" → r ≠ "doctor" →
        r ≠ "admin" → r ≠ "superadmin" → getRoleLevel r = 0)
    ∧ (∀ u : ReqUser, requireRole ["frontdesk"] true (some u) = GuardOutcome.next
        ↔ 2 ≤ getRoleLevel u.role)
    ∧ (∀ (rs : List String) (u : ReqUser) (m : Nat),
        mathMinList (rs.map getRoleLevel) = some m →
        (requireRole rs true (some u) = GuardOutcome.next ↔ m ≤ getRoleLevel u.role)) := by
  refine ⟨by decide, ?_, ?_, ?_⟩
  · intro r h1 h2 h3 h4 h5
    simp [getRoleLevel, h1, h2, h3, h4, h5]
  · intro u
    have hreq : requireRole ["frontdesk"] true (some u)
        = if getRoleLevel u.role < 2 then
            GuardOutcome.appError "Access denied. Insufficient privileges." 403
          else GuardOutcome.next := by
      simp [requireRole, mathMinList, getRoleLevel]
    rw [hreq]
    rcases Nat.lt_or_ge (getRoleLevel u.role) 2 with hlt | hge
    · rw [if_pos hlt]
      exact ⟨fun hc => GuardOutcome.noConfusion hc,
             fun hle => absurd hlt (Nat.not_lt.mpr hle)⟩
    · rw [if_neg (Nat.not_lt.mpr hge)]
      exact ⟨fun _ => hge, fun _ => rfl⟩
  · intro rs u m hm
    have hreq : requireRole rs true (some u)
        = if getRoleLevel u.role < m then
            GuardOutcome.appError "Access denied. Insufficient privileges." 403
          else GuardOutcome.next := by
      simp [requireRole, hm]
    rw [hreq]
    rcases Nat.lt_or_ge (getRoleLevel u.role) m with hlt | hge
    · rw [if_pos hlt]
      exact ⟨fun hc => GuardOutcome.noConfusion hc,
             fun hle => absurd hlt (Nat.not_lt.mpr hle)⟩
    · rw [if_neg (Nat.not_lt.mpr hge)]
      exact ⟨fun _ => hge, fun _ => rfl⟩

/-- Witness for C8: the unknown role name receptionist maps to level 0,
and the general AtLeast rule applied to allowed set
[frontdesk, doctor] (minimum level 2) for an admin principal. -/
theorem role_hierarchy_atLeast_witness :
    getRoleLevel "receptionist" = 0
    ∧ (requireRole ["frontdesk", "doctor"] true
        (some { id := "u1", role := "admin", profileId := none }) = GuardOutcome.next
       ↔ 2 ≤ getRoleLevel "admin") :=
  ⟨role_hierarchy_atLeast_spec.2.1 "receptionist" (by decide) (by decide)
      (by decide) (by decide) (by decide),
   role_hierarchy_atLeast_spec.2.2.2 ["frontdesk", "doctor"]
      { id := "u1", role := "admin", profileId := none } 2 (by decide)⟩

/-! ## C10: unknown names in the allowed list collapse AtLeast to 0 -/

/-- C10: in AtLeast (requireHigher) mode, if the allowed-roles list
contains a name whose hierarchy level is 0 (any name outside the
table), the minimum required level computes to 0 and the check passes
for every authenticated principal, including one whose own role is
unknown. -/
theorem requireRole_unknown_allowed_passes_all
    (rs : List String) (r : String) (u : ReqUser)
    (hmem : r ∈ rs) (hzero : getRoleLevel r = 0) :
    mathMinList (rs.map getRoleLevel) = some 0
    ∧ requireRole rs true (some u) = GuardOutcome.next := by
  have h0 : (0 : Nat) ∈ rs.map getRoleLevel := by
    rw [← hzero]; exact List.mem_map_of_mem _ hmem
  obtain ⟨m, hm, hle⟩ := mathMinList_le_of_mem _ _ h0
  have hm0 : m = 0 := Nat.le_zero.mp hle
  subst hm0
  refine ⟨hm, ?_⟩
  simp [requireRole, hm]

/-- Witness for C10: allowed list [frontdesk, receptionist] with the
unknown name receptionist lets a principal whose own role ghost is also
unknown pass. -/
theorem requireRole_unknown_allowed_witness :
    mathMinList ((["frontdesk", "receptionist"]).map getRoleLevel) = some 0
    ∧ requireRole ["frontdesk", "receptionist"] true
        (some { id := "u9", role := "ghost", profileId := none }) = GuardOutcome.next :=
  requireRole_unknown_allowed_passes_all ["frontdesk", "receptionist"] "receptionist"
    { id := "u9", role := "ghost", profileId := none } (by decide) (by decide)

/-! ## C4: ownership check (checkPatientAccess) -/

/-- C4 counterexample: frontdesk and superadmin are both strictly above
the self-service (patient) tier in the role hierarchy, yet
checkPatientAccess rejects both with a 403 AuthorizationError for any
requested patient id, refuting the claim that every principal above the
self-service tier succeeds. -/
theorem checkPatientAccess_above_tier_rejected :
    getRoleLevel "patient" < getRoleLevel "frontdesk"
    ∧ getRoleLevel "patient" < getRoleLevel "superadmin"
    ∧ checkPatientAccess (some { id := "u2", role := "frontdesk", profileId := some "p7" })
        (some "p1")
      = GuardOutcome.appError
          "Access denied. Insufficient privileges to access patient data." 403
    ∧ checkPatientAccess (some { id := "u3", role := "superadmin", profileId := some "p8" })
        (some "p1")
      = GuardOutcome.appError
          "Access denied. Insufficient privileges to access patient data." 403 := by
  decide

/-- C4 amended: checkPatientAccess passes exactly for doctor, admin, or
a patient whose linked profile id equals the requested id; every other
authenticated principal (including frontdesk and superadmin, both above
the self-service tier) is rejected. -/
theorem checkPatientAccess_spec (u : ReqUser) (requestedPatientId : Option String) :
    checkPatientAccess (some u) requestedPatientId = GuardOutcome.next
    ↔ (u.role = "doctor" ∨ u.role = "admin"
       ∨ (u.role = "patient" ∧ u.profileId = requestedPatientId)) := by
  simp only [checkPatientAccess]
  split_ifs with h1 h2 h3
  · simp only [true_iff]
    tauto
  · constructor
    · intro hc; exact absurd hc (by simp)
    · intro hc
      rcases hc with h | h | ⟨_, heq⟩
      · exact absurd (Or.inl h) h1
      · exact absurd (Or.inr h) h1
      · exact absurd heq h3
  · constructor
    · intro _; exact Or.inr (Or.inr ⟨h2, not_not.mp h3⟩)
    · intro _; rfl
  · constructor
    · intro hc; exact absurd hc (by simp)
    · intro hc
      rcases hc with h | h | ⟨h, _⟩
      · exact absurd (Or.inl h) h1
      · exact absurd (Or.inr h) h1
      · exact absurd h h2

/-! ## C7: read-only store handles and mutating calls -/

/-- C7 counterexample: a mutating operation invoked on the handle for
the read-only IBMS store is dispatched to the store as network traffic
and is not intercepted by any ConfigurationError guard; the source
returns the bare connection.model result with no wrapper. -/
theorem readOnly_handle_mutation_not_guarded :
    modelCall (getIBMSModel "Billing") DbOp.updateOne
      = CallEffect.networkCall "ibms" DbOp.updateOne
    ∧ (modelCall (getIBMSModel "Billing") DbOp.updateOne).isConfigError = false := by
  decide

/-- C7 amended: read-only enforcement is by convention only — every
operation, mutating ones included, invoked on an IBMS or HRMS handle is
passed straight through to the underlying store connection; no
fail-fast ConfigurationError guard exists in the code. -/
theorem readOnly_handle_passthrough (modelName : String) (op : DbOp) :
    modelCall (getIBMSModel modelName) op = CallEffect.networkCall "ibms" op
    ∧ modelCall (getHRMSModel modelName) op = CallEffect.networkCall "hrms" op :=
  ⟨rfl, rfl⟩

/-! ## C5: dashboard aggregation and secondary-fetch failure -/

/-- C5 counterexample: the primary patient fetch succeeds but the
billing (IBMS) fetch throws; the single try/catch of the handler forwards
the error to the error middleware and the whole request fails — no
successful response, no unavailable marker, no partial-data flag. -/
theorem dashboard_billing_failure_hard_fails :
    patientDashboardHandler (.ok (some patientSample)) (.ok [])
      (.error "UpstreamUnavailable: IBMS store unreachable") (.ok [])
      = DashboardResult.errorForwarded "UpstreamUnavailable: IBMS store unreachable" := rfl

/-- C5 amended: when the required patient fetch succeeds, a failure of
any one of the three secondary fetches (appointments, billing, staff)
is propagated as a hard failure of the whole call via the catch block;
the handler never degrades a failed section to a marker. -/
theorem dashboard_secondary_failure_propagates
    (p : PatientDoc) (appts : List ApptDoc) (bills : List BillDoc)
    (billingFetch : Except String (List BillDoc))
    (staffFetch : Except String (List StaffDoc)) (e : String) :
    patientDashboardHandler (.ok (some p)) (.error e) billingFetch staffFetch
      = DashboardResult.errorForwarded e
    ∧ patientDashboardHandler (.ok (some p)) (.ok appts) (.error e) staffFetch
      = DashboardResult.errorForwarded e
    ∧ patientDashboardHandler (.ok (some p)) (.ok appts) (.ok bills) (.error e)
      = DashboardResult.errorForwarded e :=
  ⟨rfl, rfl, rfl⟩

/-! ## C2: access and refresh token kinds never cross -/

/-- C2: verification with expected kind access fails on every token
issued by generateRefreshToken, and verification with expected kind
refresh fails on every token issued by generateAccessToken; moreover
verifyToken checks both which secret validates the signature (any token
not signed with the selected secret is rejected) and the kind tag
embedded in the signed payload (a token is only accepted when its tag
equals the expected kind). -/
theorem verifyToken_kind_separation (cfg : JwtConfig) (nowMs nowSec : Nat)
    (id email role : String) :
    (∃ msg, verifyToken cfg nowSec (generateRefreshToken cfg nowMs id) "access"
      = .error msg)
    ∧ (∃ msg, verifyToken cfg nowSec (generateAccessToken cfg nowMs id email role) "refresh"
      = .error msg)
    ∧ (∀ (token : SignedJwt) (expectedKind : String),
        token.signedWith ≠ (if expectedKind = "refresh" then cfg.refreshSecret else cfg.secret) →
        verifyToken cfg nowSec token expectedKind = .error "Invalid token")
    ∧ (∀ (token : SignedJwt) (expectedKind : String) (p : JwtPayload),
        verifyToken cfg nowSec token expectedKind = .ok p → p.type = expectedKind) := by
  refine ⟨?_, ?_, ?_, ?_⟩
  · by_cases hs : cfg.refreshSecret = cfg.secret
    · by_cases hexp : nowMs / 1000 + cfg.refreshExpirySec ≤ nowSec
      · exact ⟨"Token has expired",
          by simp [verifyToken, generateRefreshToken, hs, hexp]⟩
      · exact ⟨"Token verification failed: Invalid token type",
          by simp [verifyToken, generateRefreshToken, hs, hexp]⟩
    · exact ⟨"Invalid token", by simp [verifyToken, generateRefreshToken, hs]⟩
  · by_cases hs : cfg.secret = cfg.refreshSecret
    · by_cases hexp : nowMs / 1000 + cfg.accessExpirySec ≤ nowSec
      · exact ⟨"Token has expired",
          by simp [verifyToken, generateAccessToken, hs, hexp]⟩
      · exact ⟨"Token verification failed: Invalid token type",
          by simp [verifyToken, generateAccessToken, hs, hexp]⟩
    · exact ⟨"Invalid token", by simp [verifyToken, generateAccessToken, hs]⟩
  · intro token expectedKind h
    simp [verifyToken, h]
  · intro token expectedKind p h
    simp only [verifyToken] at h
    split_ifs at h with h1 h2 h3 h4 h5 h6 <;>
      first
        | exact Except.noConfusion h
        | (injection h with hp; subst hp; simp_all)

/-- Witness for C2: a token signed with a wrong secret is rejected, and
the kind-tag conjunct applied to the sample configuration. -/
theorem verifyToken_kind_separation_witness :
    verifyToken cfgSample 0
      { payload := { id := "u1", email := none, role := none, type := "access", iat := 0 }
        signedWith := "wrong-secret", issuer := "parms-backend",
        audience := "parms-frontend", exp := 100 } "access"
      = .error "Invalid token" :=
  (verifyToken_kind_separation cfgSample 0 0 "u1" "e" "r").2.2.1
    { payload := { id := "u1", email := none, role := none, type := "access", iat := 0 }
      signedWith := "wrong-secret", issuer := "parms-backend",
      audience := "parms-frontend", exp := 100 } "access" (by decide)

/-! ## C1: five failed logins lock the account; expiry plus a correct
login clears it -/

/-- The user document after the 5th consecutive failed attempt at time
t5: counter at 5 and a 2-hour lock stamped at t5, all other fields as
before. -/
def lockedAfter (u0 : UserState) (t5 : Nat) : UserState :=
  { u0 with failedLoginAttempts := 5, accountLockedUntil := some (t5 + 7200000) }

/-- C1: from a principal with zero failed attempts and no lock, each
failed login while unlocked is rejected 401 and increments the counter;
after exactly 5 consecutive failed attempts the account carries
failedLoginAttempts = 5 and a lock until t5 + 2 hours; a 6th attempt
inside the lock window is rejected 403 as locked even though the
submitted password is correct; and once the 2-hour window has elapsed a
correct login succeeds and leaves failedLoginAttempts = 0 with the lock
cleared. -/
theorem login_lockout_cycle (cfg : JwtConfig) (dev ip : Option String)
    (u0 : UserState) (t1 t2 t3 t4 t5 t6 t7 : Nat)
    (hAtt : u0.failedLoginAttempts = 0)
    (hLock : u0.accountLockedUntil = none)
    (hAct : u0.isActive = true)
    (hT6 : t6 < t5 + 7200000)
    (hT7 : t5 + 7200000 ≤ t7) :
    (∀ (t : Nat) (v : UserState), v.accountLockedUntil = none → v.isActive = true →
        loginHandler cfg t false dev ip (some v)
          = (.err "Invalid email or password" 401,
             some (v.incrementLoginAttempts t)))
    ∧ (((((u0.incrementLoginAttempts t1).incrementLoginAttempts t2).incrementLoginAttempts
          t3).incrementLoginAttempts t4).incrementLoginAttempts t5
        = lockedAfter u0 t5)
    ∧ (loginHandler cfg t6 true dev ip (some (lockedAfter u0 t5))
        = (.err "Account is temporarily locked due to multiple failed login attempts" 403,
           some (lockedAfter u0 t5)))
    ∧ (∃ tokens s7,
        loginHandler cfg t7 true dev ip (some (lockedAfter u0 t5))
          = (.ok 200 tokens, some s7)
        ∧ s7.failedLoginAttempts = 0 ∧ s7.accountLockedUntil = none) := by
  refine ⟨?_, ?_, ?_, ?_⟩
  · intro t v hl ha
    simp [loginHandler, UserState.isLocked, hl, ha]
  · simp [UserState.incrementLoginAttempts, incrementCore, UserState.isLocked,
      lockedAfter, hAtt, hLock]
  · have hlocked : (lockedAfter u0 t5).isLocked t6 = true := by
      simp [UserState.isLocked, lockedAfter]; omega
    simp [loginHandler, hlocked]
  · have hunlocked : (lockedAfter u0 t5).isLocked t7 = false := by
      simp [UserState.isLocked, lockedAfter]; omega
    have hact7 : (lockedAfter u0 t5).isActive = true := by
      simp [lockedAfter, hAct]
    refine ⟨generateTokenPair cfg t7 ((lockedAfter u0 t5).resetLoginAttempts t7),
      ((lockedAfter u0 t5).resetLoginAttempts t7).addRefreshToken t7
        (generateTokenPair cfg t7
          ((lockedAfter u0 t5).resetLoginAttempts t7)).refreshToken
        (7 * 24 * 60 * 60 * 1000) dev ip, ?_, ?_, ?_⟩
    · simp [loginHandler, hunlocked, hact7]
    · simp [UserState.addRefreshToken, UserState.resetLoginAttempts, saveUser,
        lockedAfter]
    · simp [UserState.addRefreshToken, UserState.resetLoginAttempts, saveUser,
        lockedAfter]

/-- Witness for C1: the concrete locked rejection at time 6000 ms of
the user after five failed attempts at times 1000..5000 ms, obtained
from the lockout theorem. -/
theorem login_lockout_cycle_witness :
    loginHandler cfgSample 6000 true none none (some (lockedAfter u0Sample 5000))
      = (.err "Account is temporarily locked due to multiple failed login attempts" 403,
         some (lockedAfter u0Sample 5000)) :=
  (login_lockout_cycle cfgSample none none u0Sample 1000 2000 3000 4000 5000 6000 7205000
    rfl rfl rfl (by decide) (by decide)).2.2.1

/-! ## C3: two interleaved rotations with the same token -/

/-- C3 failing execution: user u1 holds the single stored refresh token
tokenT; two refresh calls present tokenT concurrently and both read the
document before either write.  Both calls succeed with distinct new
token pairs, refuting at-most-once rotation; the final store state
holds only the new token of the second caller (the write of the first
caller is lost), leaving the refresh token freshly issued to the first
caller unusable. -/
theorem rotateRace_both_succeed :
    (rotateRace cfgSample 5000000 5600000 tokenT dbUser).1.isSome = true
    ∧ (rotateRace cfgSample 5000000 5600000 tokenT dbUser).2.1.isSome = true
    ∧ (rotateRace cfgSample 5000000 5600000 tokenT dbUser).1
        ≠ (rotateRace cfgSample 5000000 5600000 tokenT dbUser).2.1
    ∧ ((rotateRace cfgSample 5000000 5600000 tokenT dbUser).2.2.refreshTokens.map
        (fun rt => rt.token.payload.iat)) = [5600] := by
  decide

/-! ## C6: password change invalidates all outstanding refresh tokens -/

/-- C6: a successful password change leaves the principal with an empty
refresh-token list and returns a fresh token pair; afterwards, every
refresh attempt presenting a token that still verifies as a refresh
token (in particular any token issued before the change) fails with the
401 invalid-or-expired-refresh-token error, because the stored-token
existence check finds nothing. -/
theorem changePassword_invalidates_refresh (cfg : JwtConfig) (nowMs laterMs : Nat)
    (u : UserState) (dev ip : Option String)
    (hAct : u.isActive = true) :
    (changePasswordHandler cfg nowMs true u).2.refreshTokens = []
    ∧ (∃ tokens, (changePasswordHandler cfg nowMs true u).1 = .ok 200 tokens)
    ∧ (∀ (t : SignedJwt) (p : JwtPayload),
        verifyToken cfg (laterMs / 1000) t "refresh" = .ok p →
        refreshTokenHandler cfg laterMs t dev ip
          (some (changePasswordHandler cfg nowMs true u).2)
          = (.err "Invalid or expired refresh token" 401,
             some (changePasswordHandler cfg nowMs true u).2)) := by
  refine ⟨?_, ?_, ?_⟩
  · simp [changePasswordHandler, UserState.removeAllRefreshTokens, saveUser]
  · exact ⟨generateTokenPair cfg nowMs (saveUser nowMs (u.removeAllRefreshTokens nowMs)),
      by simp [changePasswordHandler]⟩
  · intro t p hv
    have hempty : (changePasswordHandler cfg nowMs true u).2.refreshTokens = [] := by
      simp [changePasswordHandler, UserState.removeAllRefreshTokens, saveUser]
    have hactP : (changePasswordHandler cfg nowMs true u).2.isActive = true := by
      simp [changePasswordHandler, UserState.removeAllRefreshTokens, saveUser, hAct]
    have hnotex :
        refreshTokenExists (changePasswordHandler cfg nowMs true u).2 laterMs t = false := by
      simp [refreshTokenExists, hempty]
    simp [refreshTokenHandler, hv, hactP, hnotex]

/-- Witness for C6: user u1 changes password at 2000000 ms; the refresh
token stored before the change still verifies at 3000000 ms but the
refresh call is rejected 401. -/
theorem changePassword_invalidates_refresh_witness :
    refreshTokenHandler cfgSample 3000000 tokenT none none
      (some (changePasswordHandler cfgSample 2000000 true dbUser).2)
      = (.err "Invalid or expired refresh token" 401,
         some (changePasswordHandler cfgSample 2000000 true dbUser).2) :=
  (changePassword_invalidates_refresh cfgSample 2000000 3000000 dbUser none none
    rfl).2.2 tokenT tokenT.payload rfl

/-! ## C9: the pair returned by change-password is never stored -/

/-- C9: change-password generates its token pair without calling
addRefreshToken, so the returned refresh token (generateRefreshToken at
the change time) is absent from the stored list, and a subsequent
refresh attempt presenting exactly that freshly returned token, made
while the token is still unexpired, fails with the 401
invalid-or-expired-refresh-token error. -/
theorem changePassword_returned_token_unusable (cfg : JwtConfig)
    (nowMs laterMs : Nat) (u : UserState) (dev ip : Option String)
    (hAct : u.isActive = true)
    (hFresh : laterMs / 1000 < nowMs / 1000 + cfg.refreshExpirySec) :
    (changePasswordHandler cfg nowMs true u).1
      = .ok 200 (generateTokenPair cfg nowMs (changePasswordHandler cfg nowMs true u).2)
    ∧ (generateTokenPair cfg nowMs (changePasswordHandler cfg nowMs true u).2).refreshToken
      = generateRefreshToken cfg nowMs u.id
    ∧ refreshTokenHandler cfg laterMs (generateRefreshToken cfg nowMs u.id) dev ip
        (some (changePasswordHandler cfg nowMs true u).2)
      = (.err "Invalid or expired refresh token" 401,
         some (changePasswordHandler cfg nowMs true u).2) := by
  have hid : (changePasswordHandler cfg nowMs true u).2.id = u.id := by
    simp [changePasswordHandler, UserState.removeAllRefreshTokens, saveUser]
  refine ⟨?_, ?_, ?_⟩
  · simp [changePasswordHandler]
  · simp [generateTokenPair, hid]
  · have hv : verifyToken cfg (laterMs / 1000)
        (generateRefreshToken cfg nowMs u.id) "refresh"
        = .ok (generateRefreshToken cfg nowMs u.id).payload := by
      simp [verifyToken, generateRefreshToken]
      omega
    have hempty : (changePasswordHandler cfg nowMs true u).2.refreshTokens = [] := by
      simp [changePasswordHandler, UserState.removeAllRefreshTokens, saveUser]
    have hactP : (changePasswordHandler cfg nowMs true u).2.isActive = true := by
      simp [changePasswordHandler, UserState.removeAllRefreshTokens, saveUser, hAct]
    have hnotex : refreshTokenExists (changePasswordHandler cfg nowMs true u).2
        laterMs (generateRefreshToken cfg nowMs u.id) = false := by
      simp [refreshTokenExists, hempty]
    simp [refreshTokenHandler, hv, hactP, hnotex]

/-- Witness for C9: user u1 changes password at 2000000 ms; presenting
the refresh token returned by that very call at 3000000 ms is rejected
401 because it was never stored. -/
theorem changePassword_returned_token_unusable_witness :
    refreshTokenHandler cfgSample 3000000 (generateRefreshToken cfgSample 2000000 "u1")
      none none (some (changePasswordHandler cfgSample 2000000 true dbUser).2)
      = (.err "Invalid or expired refresh token" 401,
         some (changePasswordHandler cfgSample 2000000 true dbUser).2) :=
  (changePassword_returned_token_unusable cfgSample 2000000 3000000 dbUser none none
    rfl (by decide)).2.2
